import Mathlib

/-!
Shallow embedding of three leaf collectors of the SODALITE-EU node_exporter
repository: the queueing-discipline (qdisc) collector, the darwin diskstats
collector, and the time collector.  Pure data transformations are translated
directly from the Go source; the external data sources (the live qdisc
netlink call, file reads, JSON unmarshalling, the iostat drive-stats call and
the wall clock) are passed in as explicit parameters, so every collector
Update becomes a pure function from its inputs to the list of emitted metric
samples together with an optional error.
-/

/-- Metric value kinds of the prometheus client library: CounterValue and
GaugeValue (the two kinds the collectors here use). -/
inductive ValueType where
  | counter
  | gauge
deriving DecidableEq, Repr

/-- A prometheus metric descriptor as the collectors build it: fully
qualified name, help text and the ordered variable label names.  The
constant-label map passed by the source is the process-wide constLabels
value, identical on every descriptor, so it is omitted here. -/
structure Desc where
  fqName : String
  help : String
  variableLabels : List String
deriving DecidableEq, Repr

/-- Modelled from the spec: the typed-metric-descriptor helper of the
collector core (not under src/) pairs a descriptor with its value kind. -/
structure TypedDesc where
  desc : Desc
  valueType : ValueType
deriving DecidableEq, Repr

/-- An emitted sample: descriptor, value kind, 64-bit float value (modelled
as a rational) and the ordered label values supplied at emission. -/
structure Metric where
  desc : Desc
  valueType : ValueType
  value : ℚ
  labelValues : List String
deriving DecidableEq, Repr

/-- Modelled from the spec: observe of the typed-metric-descriptor helper
(typedDesc.mustNewConstMetric in the collector core, not under src/) turns a
raw value plus label values into a self-describing sample in one call. -/
def TypedDesc.mustNewConstMetric (td : TypedDesc) (value : ℚ)
    (labelValues : List String) : Metric :=
  { desc := td.desc, valueType := td.valueType, value := value,
    labelValues := labelValues }

/-- prometheus.BuildFQName of the client library: joins the non-empty of
namespace, subsystem and name with underscores; empty name gives empty. -/
def buildFQName (ns sub nm : String) : String :=
  if nm = "" then ""
  else if ns ≠ "" ∧ sub ≠ "" then ns ++ "_" ++ sub ++ "_" ++ nm
  else if ns ≠ "" then ns ++ "_" ++ nm
  else if sub ≠ "" then sub ++ "_" ++ nm
  else nm

/-- Modelled from the spec: the process-wide metric namespace constant of
the collector core (not under src/); its concrete value decides no claim. -/
def nodeNamespace : String := "node"

/-- Modelled from the spec: the disk subsystem name constant of the
collector core (not under src/); its concrete value decides no claim. -/
def diskSubsystem : String := "disk"

/-- Modelled from the spec: the diskstats descriptors declare exactly one
variable label, the device name (diskLabelNames, not under src/). -/
def diskLabelNames : List String := ["device"]

/-- go's filepath.Join for the one two-component use in testQdiscGet. -/
def filepathJoin (dir file : String) : String := dir ++ "/" ++ file

/-- One entry returned by the qdisc data source (github.com/ema/qdisc
QdiscInfo), restricted to the fields the collector reads.  Parent, Packets,
Drops, Requeues, Overlimits, Qlen and Backlog are uint32 and Bytes is
uint64 in Go, so all are modelled as Nat. -/
structure QdiscInfo where
  ifaceName : String
  parent : Nat
  kind : String
  bytes : Nat
  packets : Nat
  drops : Nat
  requeues : Nat
  overlimits : Nat
  qlen : Nat
  backlog : Nat
deriving DecidableEq, Repr

/-- The two variable label names every qdisc descriptor declares. -/
def qdiscLabelNames : List String := ["device", "kind"]

/-- The qdiscStatCollector struct: seven typed descriptors. -/
structure QdiscStatCollector where
  bytes : TypedDesc
  packets : TypedDesc
  drops : TypedDesc
  requeues : TypedDesc
  overlimits : TypedDesc
  qlength : TypedDesc
  backlog : TypedDesc
deriving DecidableEq, Repr

/-- NewQdiscStatCollector: builds the seven descriptors, five counters and
two gauges, all with label names device and kind. -/
def newQdiscStatCollector : QdiscStatCollector :=
  { bytes :=
      { desc := { fqName := buildFQName nodeNamespace "qdisc" "bytes_total",
                  help := "Number of bytes sent.",
                  variableLabels := qdiscLabelNames },
        valueType := ValueType.counter },
    packets :=
      { desc := { fqName := buildFQName nodeNamespace "qdisc" "packets_total",
                  help := "Number of packets sent.",
                  variableLabels := qdiscLabelNames },
        valueType := ValueType.counter },
    drops :=
      { desc := { fqName := buildFQName nodeNamespace "qdisc" "drops_total",
                  help := "Number of packets dropped.",
                  variableLabels := qdiscLabelNames },
        valueType := ValueType.counter },
    requeues :=
      { desc := { fqName := buildFQName nodeNamespace "qdisc" "requeues_total",
                  help := "Number of packets dequeued, not transmitted, and requeued.",
                  variableLabels := qdiscLabelNames },
        valueType := ValueType.counter },
    overlimits :=
      { desc := { fqName := buildFQName nodeNamespace "qdisc" "overlimits_total",
                  help := "Number of overlimit packets.",
                  variableLabels := qdiscLabelNames },
        valueType := ValueType.counter },
    qlength :=
      { desc := { fqName := buildFQName nodeNamespace "qdisc" "current_queue_length",
                  help := "Number of packets currently in queue to be sent.",
                  variableLabels := qdiscLabelNames },
        valueType := ValueType.gauge },
    backlog :=
      { desc := { fqName := buildFQName nodeNamespace "qdisc" "backlog",
                  help := "Number of bytes currently in queue to be sent.",
                  variableLabels := qdiscLabelNames },
        valueType := ValueType.gauge } }

/-- testQdiscGet: reads results.json under the fixtures directory and
unmarshals it; the file read and the JSON unmarshal are the external
collaborators, passed as parameters.  A read error is returned as is,
otherwise the unmarshal result (value and error) is returned. -/
def testQdiscGet (fixtures : String)
    (readFile : String → Except String String)
    (unmarshal : String → Except String (List QdiscInfo)) :
    Except String (List QdiscInfo) :=
  match readFile (filepathJoin fixtures "results.json") with
  | Except.error e => Except.error e
  | Except.ok b => unmarshal b

/-- The body of the loop of qdiscStatCollector.Update for one entry: a
non-root entry (Parent != 0) is skipped, a root entry emits the seven
samples, each labelled with the interface name and the qdisc kind. -/
def qdiscEmitOne (c : QdiscStatCollector) (msg : QdiscInfo) : List Metric :=
  if msg.parent ≠ 0 then []
  else
    [c.bytes.mustNewConstMetric (msg.bytes : ℚ) [msg.ifaceName, msg.kind],
     c.packets.mustNewConstMetric (msg.packets : ℚ) [msg.ifaceName, msg.kind],
     c.drops.mustNewConstMetric (msg.drops : ℚ) [msg.ifaceName, msg.kind],
     c.requeues.mustNewConstMetric (msg.requeues : ℚ) [msg.ifaceName, msg.kind],
     c.overlimits.mustNewConstMetric (msg.overlimits : ℚ) [msg.ifaceName, msg.kind],
     c.qlength.mustNewConstMetric (msg.qlen : ℚ) [msg.ifaceName, msg.kind],
     c.backlog.mustNewConstMetric (msg.backlog : ℚ) [msg.ifaceName, msg.kind]]

/-- qdiscStatCollector.Update: when the fixtures flag is empty the live
qdisc.Get result is used, otherwise testQdiscGet on the fixtures directory;
a fetch error is returned with nothing emitted, otherwise every root entry
emits its seven samples in entry order.  The result pairs the emitted
samples with the returned error (none on success). -/
def QdiscStatCollector.update (c : QdiscStatCollector) (fixtures : String)
    (qdiscGet : Except String (List QdiscInfo))
    (readFile : String → Except String String)
    (unmarshal : String → Except String (List QdiscInfo)) :
    List Metric × Option String :=
  match (if fixtures = "" then qdiscGet
         else testQdiscGet fixtures readFile unmarshal) with
  | Except.error e => ([], some e)
  | Except.ok msgs => (msgs.flatMap (qdiscEmitOne c), none)

/-- One entry of the iostat drive-stats list (lufia/iostat DriveStats),
restricted to the fields the collector reads.  The counters are int64 in
Go, modelled as Int; the two total times are time.Duration values in
nanoseconds, modelled as Int. -/
structure DriveStats where
  name : String
  blockSize : Int
  numRead : Int
  numWrite : Int
  bytesRead : Int
  bytesWritten : Int
  totalReadTimeNs : Int
  totalWriteTimeNs : Int
  readErrors : Int
  writeErrors : Int
  readRetries : Int
  writeRetries : Int
deriving DecidableEq, Repr

/-- A typedDescFunc: a typed descriptor together with the function that
extracts the sample value from one drive's stats. -/
structure TypedDescFunc where
  typedDesc : TypedDesc
  value : DriveStats → ℚ

def readsCompletedDesc : Desc :=
  { fqName := buildFQName nodeNamespace diskSubsystem "reads_completed_total",
    help := "The total number of reads completed successfully.",
    variableLabels := diskLabelNames }

def readBytesDesc : Desc :=
  { fqName := buildFQName nodeNamespace diskSubsystem "read_bytes_total",
    help := "The total number of bytes read successfully.",
    variableLabels := diskLabelNames }

def writesCompletedDesc : Desc :=
  { fqName := buildFQName nodeNamespace diskSubsystem "writes_completed_total",
    help := "The total number of writes completed successfully.",
    variableLabels := diskLabelNames }

def writtenBytesDesc : Desc :=
  { fqName := buildFQName nodeNamespace diskSubsystem "written_bytes_total",
    help := "The total number of bytes written successfully.",
    variableLabels := diskLabelNames }

def readTimeSecondsDesc : Desc :=
  { fqName := buildFQName nodeNamespace diskSubsystem "read_time_seconds_total",
    help := "The total number of seconds spent by all reads.",
    variableLabels := diskLabelNames }

def writeTimeSecondsDesc : Desc :=
  { fqName := buildFQName nodeNamespace diskSubsystem "write_time_seconds_total",
    help := "This is the total number of seconds spent by all writes.",
    variableLabels := diskLabelNames }

def readSectorsDesc : Desc :=
  { fqName := buildFQName nodeNamespace diskSubsystem "read_sectors_total",
    help := "The total number of sectors read successfully.",
    variableLabels := diskLabelNames }

def writtenSectorsDesc : Desc :=
  { fqName := buildFQName nodeNamespace diskSubsystem "written_sectors_total",
    help := "The total number of sectors written successfully.",
    variableLabels := diskLabelNames }

def readErrorsDesc : Desc :=
  { fqName := buildFQName nodeNamespace diskSubsystem "read_errors_total",
    help := "The total number of read errors.",
    variableLabels := diskLabelNames }

def writeErrorsDesc : Desc :=
  { fqName := buildFQName nodeNamespace diskSubsystem "write_errors_total",
    help := "The total number of write errors.",
    variableLabels := diskLabelNames }

def readRetriesDesc : Desc :=
  { fqName := buildFQName nodeNamespace diskSubsystem "read_retries_total",
    help := "The total number of read retries.",
    variableLabels := diskLabelNames }

def writeRetriesDesc : Desc :=
  { fqName := buildFQName nodeNamespace diskSubsystem "write_retries_total",
    help := "The total number of write retries.",
    variableLabels := diskLabelNames }

/-- The descs list of NewDiskstatsCollector, in source order.  Duration's
Seconds method divides the nanosecond count by 1e9; the sector metrics
divide the operation counts by the block size. -/
def diskstatsDescs : List TypedDescFunc :=
  [{ typedDesc := { desc := readsCompletedDesc, valueType := ValueType.counter },
     value := fun stat => (stat.numRead : ℚ) },
   { typedDesc := { desc := readSectorsDesc, valueType := ValueType.counter },
     value := fun stat => (stat.numRead : ℚ) / (stat.blockSize : ℚ) },
   { typedDesc := { desc := readTimeSecondsDesc, valueType := ValueType.counter },
     value := fun stat => (stat.totalReadTimeNs : ℚ) / 1000000000 },
   { typedDesc := { desc := writesCompletedDesc, valueType := ValueType.counter },
     value := fun stat => (stat.numWrite : ℚ) },
   { typedDesc := { desc := writtenSectorsDesc, valueType := ValueType.counter },
     value := fun stat => (stat.numWrite : ℚ) / (stat.blockSize : ℚ) },
   { typedDesc := { desc := writeTimeSecondsDesc, valueType := ValueType.counter },
     value := fun stat => (stat.totalWriteTimeNs : ℚ) / 1000000000 },
   { typedDesc := { desc := readBytesDesc, valueType := ValueType.counter },
     value := fun stat => (stat.bytesRead : ℚ) },
   { typedDesc := { desc := writtenBytesDesc, valueType := ValueType.counter },
     value := fun stat => (stat.bytesWritten : ℚ) },
   { typedDesc := { desc := readErrorsDesc, valueType := ValueType.counter },
     value := fun stat => (stat.readErrors : ℚ) },
   { typedDesc := { desc := writeErrorsDesc, valueType := ValueType.counter },
     value := fun stat => (stat.writeErrors : ℚ) },
   { typedDesc := { desc := readRetriesDesc, valueType := ValueType.counter },
     value := fun stat => (stat.readRetries : ℚ) },
   { typedDesc := { desc := writeRetriesDesc, valueType := ValueType.counter },
     value := fun stat => (stat.writeRetries : ℚ) }]

/-- The inner loop of diskstatsCollector.Update for one drive: every
descriptor in the list emits one sample labelled with the drive name. -/
def diskstatsSamplesFor (stat : DriveStats) : List Metric :=
  diskstatsDescs.map
    (fun d => d.typedDesc.mustNewConstMetric (d.value stat) [stat.name])

/-- diskstatsCollector.Update: the iostat.ReadDriveStats result is the
parameter; an error is wrapped and returned with nothing emitted, otherwise
every drive emits all its samples in list order. -/
def diskstatsUpdate (readDriveStats : Except String (List DriveStats)) :
    List Metric × Option String :=
  match readDriveStats with
  | Except.error e => ([], some ("couldn\x27t get diskstats: " ++ e))
  | Except.ok diskStats => (diskStats.flatMap diskstatsSamplesFor, none)

/-- NewTimeCollector's descriptor: no variable labels. -/
def timeDesc : Desc :=
  { fqName := nodeNamespace ++ "_time_seconds",
    help := "System time in seconds since epoch (1970).",
    variableLabels := [] }

/-- timeCollector.Update: reads the clock at call time (the UnixNano value
is the parameter), divides by 1e9 and emits that single gauge sample. -/
def timeUpdate (nowUnixNano : Int) : List Metric × Option String :=
  ([{ desc := timeDesc, valueType := ValueType.gauge,
      value := (nowUnixNano : ℚ) / 1000000000, labelValues := [] }], none)

/-- A concrete root entry, used to instantiate theorems. -/
def exRoot : QdiscInfo :=
  { ifaceName := "eth0", parent := 0, kind := "fq_codel", bytes := 41,
    packets := 3, drops := 1, requeues := 2, overlimits := 4, qlen := 5,
    backlog := 6 }

/-- A concrete non-root (child) entry, used to instantiate theorems. -/
def exChild : QdiscInfo :=
  { ifaceName := "eth0", parent := 100, kind := "pfifo", bytes := 7,
    packets := 8, drops := 9, requeues := 10, overlimits := 11, qlen := 12,
    backlog := 13 }

/-- The entry of the concrete pfifo scenario of the spec. -/
def pfifoEntry : QdiscInfo :=
  { ifaceName := "eth0", parent := 0, kind := "pfifo", bytes := 1000,
    packets := 10, drops := 0, requeues := 0, overlimits := 0, qlen := 5,
    backlog := 200 }

/-- A concrete drive-stats entry, used to instantiate theorems. -/
def exDrive : DriveStats :=
  { name := "disk0", blockSize := 512, numRead := 100, numWrite := 200,
    bytesRead := 4096, bytesWritten := 8192, totalReadTimeNs := 1500000000,
    totalWriteTimeNs := 2500000000, readErrors := 1, writeErrors := 2,
    readRetries := 3, writeRetries := 4 }

/-- Helper: Update with a successful fetch returns the flatMap of the
per-entry emission over the fetched list, and no error. -/
theorem qdisc_update_ok (c : QdiscStatCollector) (fixtures : String)
    (qdiscGet : Except String (List QdiscInfo))
    (readFile : String → Except String String)
    (unmarshal : String → Except String (List QdiscInfo))
    (msgs : List QdiscInfo)
    (h : (if fixtures = "" then qdiscGet
          else testQdiscGet fixtures readFile unmarshal) = Except.ok msgs) :
    c.update fixtures qdiscGet readFile unmarshal
      = (msgs.flatMap (qdiscEmitOne c), none) := by
  unfold QdiscStatCollector.update
  rw [h]

/-- Helper: non-root entries contribute nothing to the emitted samples. -/
theorem qdisc_flatMap_filter (c : QdiscStatCollector) (msgs : List QdiscInfo) :
    msgs.flatMap (qdiscEmitOne c)
      = (msgs.filter (fun m => m.parent == 0)).flatMap (qdiscEmitOne c) := by
  induction msgs with
  | nil => rfl
  | cons m t ih =>
    by_cases h : m.parent = 0
    · simp [List.flatMap_cons, List.filter_cons, h, ih]
    · simp [List.flatMap_cons, List.filter_cons, h, ih, qdiscEmitOne]

/-- Helper: the emitted sample count is seven per root entry. -/
theorem qdisc_flatMap_length (c : QdiscStatCollector) (msgs : List QdiscInfo) :
    (msgs.flatMap (qdiscEmitOne c)).length
      = 7 * (msgs.filter (fun m => m.parent == 0)).length := by
  induction msgs with
  | nil => rfl
  | cons m t ih =>
    by_cases h : m.parent = 0
    · simp only [List.flatMap_cons, List.filter_cons, h, beq_self_eq_true,
        if_pos, List.length_append, List.length_cons, ih, qdiscEmitOne]
      simp [qdiscEmitOne, h]
      omega
    · simp [List.flatMap_cons, List.filter_cons, h, ih, qdiscEmitOne]

/-- Helper: a list of only non-root entries emits no samples. -/
theorem qdisc_flatMap_nil_of_nonroot (c : QdiscStatCollector)
    (l : List QdiscInfo) (h : ∀ m ∈ l, m.parent ≠ 0) :
    l.flatMap (qdiscEmitOne c) = [] := by
  induction l with
  | nil => rfl
  | cons m t ih =>
    have hm := h m (List.mem_cons_self m t)
    rw [List.flatMap_cons, ih (fun x hx => h x (List.mem_cons_of_mem m hx))]
    simp [qdiscEmitOne, hm]

/-- Claim C1: for every entry list the data source returns (live or
fixture), Update emits samples only for entries with Parent equal to 0: the
output equals the emission over the root-filtered list, and its length is
seven times the number of root entries (so N root and M child entries give
samples for exactly the N roots and none of the children). -/
theorem qdisc_update_reports_only_roots
    (fixtures : String) (qdiscGet : Except String (List QdiscInfo))
    (readFile : String → Except String String)
    (unmarshal : String → Except String (List QdiscInfo))
    (msgs : List QdiscInfo)
    (h : (if fixtures = "" then qdiscGet
          else testQdiscGet fixtures readFile unmarshal) = Except.ok msgs) :
    (newQdiscStatCollector.update fixtures qdiscGet readFile unmarshal).1
        = (msgs.filter (fun m => m.parent == 0)).flatMap
            (qdiscEmitOne newQdiscStatCollector)
      ∧ (newQdiscStatCollector.update fixtures qdiscGet readFile unmarshal).1.length
        = 7 * (msgs.filter (fun m => m.parent == 0)).length := by
  rw [qdisc_update_ok newQdiscStatCollector fixtures qdiscGet readFile unmarshal msgs h]
  exact ⟨qdisc_flatMap_filter newQdiscStatCollector msgs,
    qdisc_flatMap_length newQdiscStatCollector msgs⟩

/-- Witness for C1 at a concrete two-entry list (one root, one child). -/
theorem qdisc_update_reports_only_roots_witness :
    (newQdiscStatCollector.update "" (Except.ok [exRoot, exChild])
        (fun _ => Except.error "e") (fun _ => Except.error "e")).1.length
      = 7 * ([exRoot, exChild].filter (fun m => m.parent == 0)).length :=
  (qdisc_update_reports_only_roots "" (Except.ok [exRoot, exChild])
    (fun _ => Except.error "e") (fun _ => Except.error "e") [exRoot, exChild]
    rfl).2

/-- Claim C2: if the data source yields the pfifo entry on eth0 (Parent 0,
Bytes 1000, Packets 10, Drops 0, Requeues 0, Overlimits 0, Qlen 5,
Backlog 200) plus entries with nonzero Parent, Update emits exactly 7
samples, all labelled device eth0 and kind pfifo, with values 1000, 10, 0,
0, 0, 5, 200 in the bytes, packets, drops, requeues, overlimits, qlength
and backlog series respectively, and none for the nonzero-Parent entries. -/
theorem qdisc_update_pfifo_scenario
    (fixtures : String) (qdiscGet : Except String (List QdiscInfo))
    (readFile : String → Except String String)
    (unmarshal : String → Except String (List QdiscInfo))
    (pre post : List QdiscInfo)
    (hpre : ∀ m ∈ pre, m.parent ≠ 0)
    (hpost : ∀ m ∈ post, m.parent ≠ 0)
    (h : (if fixtures = "" then qdiscGet
          else testQdiscGet fixtures readFile unmarshal)
        = Except.ok (pre ++ pfifoEntry :: post)) :
    (newQdiscStatCollector.update fixtures qdiscGet readFile unmarshal).1.length = 7
      ∧ (∀ m ∈ (newQdiscStatCollector.update fixtures qdiscGet readFile unmarshal).1,
          m.labelValues = ["eth0", "pfifo"])
      ∧ (newQdiscStatCollector.update fixtures qdiscGet readFile unmarshal).1.map
          Metric.value = [1000, 10, 0, 0, 0, 5, 200]
      ∧ (newQdiscStatCollector.update fixtures qdiscGet readFile unmarshal).1.map
          Metric.desc
        = [newQdiscStatCollector.bytes.desc, newQdiscStatCollector.packets.desc,
           newQdiscStatCollector.drops.desc, newQdiscStatCollector.requeues.desc,
           newQdiscStatCollector.overlimits.desc, newQdiscStatCollector.qlength.desc,
           newQdiscStatCollector.backlog.desc] := by
  have hok := qdisc_update_ok newQdiscStatCollector fixtures qdiscGet readFile
    unmarshal (pre ++ pfifoEntry :: post) h
  have hout : (newQdiscStatCollector.update fixtures qdiscGet readFile unmarshal).1
      = qdiscEmitOne newQdiscStatCollector pfifoEntry := by
    rw [hok]
    show (pre ++ pfifoEntry :: post).flatMap (qdiscEmitOne newQdiscStatCollector) = _
    rw [List.flatMap_append, qdisc_flatMap_nil_of_nonroot _ pre hpre,
      List.flatMap_cons, qdisc_flatMap_nil_of_nonroot _ post hpost]
    simp
  rw [hout]
  decide

/-- Witness for C2 with no preceding entries and one child entry after. -/
theorem qdisc_update_pfifo_scenario_witness :
    (newQdiscStatCollector.update "" (Except.ok ([] ++ pfifoEntry :: [exChild]))
        (fun _ => Except.error "e") (fun _ => Except.error "e")).1.map
      Metric.value = [1000, 10, 0, 0, 0, 5, 200] :=
  (qdisc_update_pfifo_scenario "" (Except.ok ([] ++ pfifoEntry :: [exChild]))
    (fun _ => Except.error "e") (fun _ => Except.error "e") [] [exChild]
    (by simp) (by decide) rfl).2.2.1

/-- Claim C3: per-entity atomicity.  A successful diskstats Update emits,
for every drive in the fetched list, one sample per declared descriptor
(all 12, in declaration order); a successful qdisc Update emits, for every
root entry, one sample per declared descriptor (all 7); a non-root entry
emits none.  No entity ever gets a strict non-empty subset. -/
theorem per_entity_atomicity
    (driveFetch : Except String (List DriveStats)) (stats : List DriveStats)
    (fixtures : String) (qdiscGet : Except String (List QdiscInfo))
    (readFile : String → Except String String)
    (unmarshal : String → Except String (List QdiscInfo))
    (msgs : List QdiscInfo)
    (hd : driveFetch = Except.ok stats)
    (hq : (if fixtures = "" then qdiscGet
           else testQdiscGet fixtures readFile unmarshal) = Except.ok msgs) :
    ((diskstatsUpdate driveFetch).1 = stats.flatMap diskstatsSamplesFor
      ∧ ∀ s : DriveStats,
          (diskstatsSamplesFor s).map Metric.desc
              = diskstatsDescs.map (fun d => d.typedDesc.desc)
            ∧ (diskstatsSamplesFor s).length = 12)
    ∧ ((newQdiscStatCollector.update fixtures qdiscGet readFile unmarshal).1
          = msgs.flatMap (qdiscEmitOne newQdiscStatCollector)
      ∧ ∀ m : QdiscInfo,
          (qdiscEmitOne newQdiscStatCollector m = [] ∧ m.parent ≠ 0)
          ∨ ((qdiscEmitOne newQdiscStatCollector m).map Metric.desc
                = [newQdiscStatCollector.bytes.desc,
                   newQdiscStatCollector.packets.desc,
                   newQdiscStatCollector.drops.desc,
                   newQdiscStatCollector.requeues.desc,
                   newQdiscStatCollector.overlimits.desc,
                   newQdiscStatCollector.qlength.desc,
                   newQdiscStatCollector.backlog.desc]
              ∧ m.parent = 0)) := by
  refine ⟨⟨by rw [hd]; rfl, fun s => ⟨?_, ?_⟩⟩,
    ⟨by rw [qdisc_update_ok newQdiscStatCollector fixtures qdiscGet readFile unmarshal msgs hq], fun m => ?_⟩⟩
  · simp [diskstatsSamplesFor, TypedDesc.mustNewConstMetric]
  · simp only [diskstatsSamplesFor, List.length_map]
    rfl
  · by_cases h : m.parent = 0
    · exact Or.inr ⟨by simp [qdiscEmitOne, h, TypedDesc.mustNewConstMetric], h⟩
    · exact Or.inl ⟨by simp [qdiscEmitOne, h], h⟩

/-- Witness for C3 at a concrete drive entry. -/
theorem per_entity_atomicity_witness :
    (diskstatsSamplesFor exDrive).length = 12 :=
  ((per_entity_atomicity (Except.ok [exDrive]) [exDrive] "" (Except.ok [exRoot])
    (fun _ => Except.error "e") (fun _ => Except.error "e") [exRoot] rfl
    rfl).1.2 exDrive).2

/-- Claim C4: each Update returns an error exactly when its fetch fails,
and then emits no samples at all; a successful fetch gives a successful
Update.  For diskstats the fetch error is wrapped with a prefix. -/
theorem update_error_iff_fetch
    (fixtures : String) (qdiscGet : Except String (List QdiscInfo))
    (readFile : String → Except String String)
    (unmarshal : String → Except String (List QdiscInfo))
    (driveFetch : Except String (List DriveStats)) :
    (∀ e, (if fixtures = "" then qdiscGet
           else testQdiscGet fixtures readFile unmarshal) = Except.error e →
        newQdiscStatCollector.update fixtures qdiscGet readFile unmarshal
          = ([], some e))
    ∧ (∀ msgs, (if fixtures = "" then qdiscGet
                else testQdiscGet fixtures readFile unmarshal) = Except.ok msgs →
        (newQdiscStatCollector.update fixtures qdiscGet readFile unmarshal).2
          = none)
    ∧ (∀ e, driveFetch = Except.error e →
        diskstatsUpdate driveFetch
          = ([], some ("couldn\x27t get diskstats: " ++ e)))
    ∧ (∀ stats, driveFetch = Except.ok stats →
        (diskstatsUpdate driveFetch).2 = none) := by
  refine ⟨fun e he => ?_, fun msgs hm => ?_, fun e he => ?_, fun stats hs => ?_⟩
  · unfold QdiscStatCollector.update
    rw [he]
  · rw [qdisc_update_ok newQdiscStatCollector fixtures qdiscGet readFile
      unmarshal msgs hm]
  · rw [he]
    rfl
  · rw [hs]
    rfl

/-- Witness for C4 at a concrete failing live fetch. -/
theorem update_error_iff_fetch_witness :
    newQdiscStatCollector.update "" (Except.error "boom")
        (fun _ => Except.error "e") (fun _ => Except.error "e")
      = ([], some "boom") :=
  (update_error_iff_fetch "" (Except.error "boom") (fun _ => Except.error "e")
    (fun _ => Except.error "e") (Except.error "d")).1 "boom" rfl

/-- Claim C5: fixture and live runs are interchangeable.  If the fixture
reader returns the same fetch result as the live source would, a
fixture-backed Update (nonempty fixtures flag) equals the live-backed one
(empty flag): the flag selects only which fetch function is called. -/
theorem fixture_live_equivalence
    (fixtures : String) (qdiscGet : Except String (List QdiscInfo))
    (readFile : String → Except String String)
    (unmarshal : String → Except String (List QdiscInfo))
    (hne : fixtures ≠ "")
    (heq : testQdiscGet fixtures readFile unmarshal = qdiscGet) :
    newQdiscStatCollector.update fixtures qdiscGet readFile unmarshal
      = newQdiscStatCollector.update "" qdiscGet readFile unmarshal := by
  unfold QdiscStatCollector.update
  rw [if_neg hne, heq]
  simp

/-- Witness for C5 at a concrete fixture whose content matches the live
result. -/
theorem fixture_live_equivalence_witness :
    newQdiscStatCollector.update "fix" (Except.ok [exRoot])
        (fun _ => Except.ok "j") (fun _ => Except.ok [exRoot])
      = newQdiscStatCollector.update "" (Except.ok [exRoot])
        (fun _ => Except.ok "j") (fun _ => Except.ok [exRoot]) :=
  fixture_live_equivalence "fix" (Except.ok [exRoot]) (fun _ => Except.ok "j")
    (fun _ => Except.ok [exRoot]) (by decide) rfl

/-- Claim C6: determinism of fixture-backed scrapes.  With a nonempty
fixtures flag and fixed file content (the same readFile and unmarshal
functions), Update gives the same full sample list and error on any two
invocations, whatever the live source would have returned each time. -/
theorem fixture_determinism
    (fixtures : String)
    (readFile : String → Except String String)
    (unmarshal : String → Except String (List QdiscInfo))
    (liveGet1 liveGet2 : Except String (List QdiscInfo))
    (hne : fixtures ≠ "") :
    newQdiscStatCollector.update fixtures liveGet1 readFile unmarshal
      = newQdiscStatCollector.update fixtures liveGet2 readFile unmarshal := by
  unfold QdiscStatCollector.update
  rw [if_neg hne, if_neg hne]

/-- Witness for C6: two invocations, the live source differing. -/
theorem fixture_determinism_witness :
    newQdiscStatCollector.update "fix" (Except.ok [exRoot])
        (fun _ => Except.ok "j") (fun _ => Except.ok [pfifoEntry])
      = newQdiscStatCollector.update "fix" (Except.error "down")
        (fun _ => Except.ok "j") (fun _ => Except.ok [pfifoEntry]) :=
  fixture_determinism "fix" (fun _ => Except.ok "j")
    (fun _ => Except.ok [pfifoEntry]) (Except.ok [exRoot])
    (Except.error "down") (by decide)

/-- Claim C7: the time Update emits exactly one gauge sample whose value is
the UnixNano clock reading at call time divided by 1e9, and returns no
error; two invocations whose readings differ by one second (1e9 ns) give
values differing by exactly 1. -/
theorem time_update_wallclock (t1 t2 : Int) (h : t2 - t1 = 1000000000) :
    (timeUpdate t1).1.length = 1
      ∧ (∀ m ∈ (timeUpdate t1).1,
          m.valueType = ValueType.gauge ∧ m.value = (t1 : ℚ) / 1000000000)
      ∧ (timeUpdate t1).2 = none
      ∧ (timeUpdate t2).1.map Metric.value = [(t2 : ℚ) / 1000000000]
      ∧ (t2 : ℚ) / 1000000000 - (t1 : ℚ) / 1000000000 = 1 := by
  refine ⟨rfl, ?_, rfl, rfl, ?_⟩
  · intro m hm
    simp only [timeUpdate, List.mem_singleton] at hm
    subst hm
    exact ⟨rfl, rfl⟩
  · have h2 : (t2 : ℚ) = (t1 : ℚ) + 1000000000 := by
      have hc := congrArg (fun z : Int => (z : ℚ)) h
      push_cast at hc
      linarith
    rw [h2]
    ring

/-- Witness for C7 at readings 0 and 1e9 nanoseconds. -/
theorem time_update_wallclock_witness :
    (timeUpdate 1000000000).1.map Metric.value
      = [((1000000000 : Int) : ℚ) / 1000000000] :=
  (time_update_wallclock 0 1000000000 (by decide)).2.2.2.1

/-- Helper: a sample of one qdisc entry carries exactly the entry's
interface name and kind as label values, and a descriptor declaring the
two label names device and kind. -/
theorem mem_qdiscEmitOne_new (msg : QdiscInfo) (x : Metric)
    (hx : x ∈ qdiscEmitOne newQdiscStatCollector msg) :
    x.labelValues = [msg.ifaceName, msg.kind]
      ∧ x.desc.variableLabels = ["device", "kind"] := by
  by_cases h : msg.parent = 0
  · simp only [qdiscEmitOne, h, ne_eq, not_true_eq_false, if_false,
      not_false_eq_true, if_neg, List.mem_cons, List.mem_singleton,
      List.not_mem_nil, or_false] at hx
    rcases hx with h1 | h1 | h1 | h1 | h1 | h1 | h1 <;> subst h1 <;>
      exact ⟨rfl, rfl⟩
  · simp [qdiscEmitOne, h] at hx

/-- Helper: a sample emitted by a qdisc Update comes from some entry. -/
theorem mem_qdisc_update (c : QdiscStatCollector) (fixtures : String)
    (qdiscGet : Except String (List QdiscInfo))
    (readFile : String → Except String String)
    (unmarshal : String → Except String (List QdiscInfo)) (x : Metric)
    (hx : x ∈ (c.update fixtures qdiscGet readFile unmarshal).1) :
    ∃ msg, x ∈ qdiscEmitOne c msg := by
  unfold QdiscStatCollector.update at hx
  rcases hfetch : (if fixtures = "" then qdiscGet
                   else testQdiscGet fixtures readFile unmarshal) with e | msgs
  · rw [hfetch] at hx
    simp at hx
  · rw [hfetch] at hx
    rw [show ((msgs.flatMap (qdiscEmitOne c), (none : Option String)).1
        = msgs.flatMap (qdiscEmitOne c)) from rfl, List.mem_flatMap] at hx
    obtain ⟨msg, _, hmem⟩ := hx
    exact ⟨msg, hmem⟩

/-- Helper: a sample of one drive carries exactly the drive name as label
value, and a descriptor declaring the single label name device. -/
theorem mem_diskstatsSamplesFor (s : DriveStats) (x : Metric)
    (hx : x ∈ diskstatsSamplesFor s) :
    x.labelValues = [s.name] ∧ x.desc.variableLabels = ["device"] := by
  simp only [diskstatsSamplesFor, List.mem_map] at hx
  obtain ⟨d, hd, hxe⟩ := hx
  subst hxe
  refine ⟨rfl, ?_⟩
  fin_cases hd <;> rfl

/-- Helper: a sample emitted by a diskstats Update comes from some drive. -/
theorem mem_diskstats_update (driveFetch : Except String (List DriveStats))
    (x : Metric) (hx : x ∈ (diskstatsUpdate driveFetch).1) :
    ∃ s, x ∈ diskstatsSamplesFor s := by
  rcases driveFetch with e | stats
  · simp [diskstatsUpdate] at hx
  · rw [show (diskstatsUpdate (Except.ok stats)).1
        = stats.flatMap diskstatsSamplesFor from rfl, List.mem_flatMap] at hx
    obtain ⟨s, _, hmem⟩ := hx
    exact ⟨s, hmem⟩

/-- Claim C8: label consistency.  Every sample a qdisc Update emits supplies
exactly as many label values as its descriptor declares label names, the
declared names being device and kind; the values are the entry's interface
name and kind, in that order.  Every sample a diskstats Update emits
supplies the one drive-name value its descriptor declares. -/
theorem label_consistency
    (fixtures : String) (qdiscGet : Except String (List QdiscInfo))
    (readFile : String → Except String String)
    (unmarshal : String → Except String (List QdiscInfo))
    (driveFetch : Except String (List DriveStats)) :
    (∀ m ∈ (newQdiscStatCollector.update fixtures qdiscGet readFile unmarshal).1,
        m.labelValues.length = m.desc.variableLabels.length
          ∧ m.desc.variableLabels = ["device", "kind"])
    ∧ (∀ msg : QdiscInfo, ∀ m ∈ qdiscEmitOne newQdiscStatCollector msg,
        m.labelValues = [msg.ifaceName, msg.kind])
    ∧ (∀ m ∈ (diskstatsUpdate driveFetch).1,
        m.labelValues.length = m.desc.variableLabels.length
          ∧ m.desc.variableLabels = ["device"])
    ∧ (∀ s : DriveStats, ∀ m ∈ diskstatsSamplesFor s,
        m.labelValues = [s.name]) := by
  refine ⟨fun m hm => ?_, fun msg m hm => ?_, fun m hm => ?_, fun s m hm => ?_⟩
  · obtain ⟨msg, hmem⟩ :=
      mem_qdisc_update newQdiscStatCollector fixtures qdiscGet readFile
        unmarshal m hm
    obtain ⟨hlv, hvl⟩ := mem_qdiscEmitOne_new msg m hmem
    exact ⟨by simp [hlv, hvl], hvl⟩
  · exact (mem_qdiscEmitOne_new msg m hm).1
  · obtain ⟨s, hmem⟩ := mem_diskstats_update driveFetch m hm
    obtain ⟨hlv, hvl⟩ := mem_diskstatsSamplesFor s m hmem
    exact ⟨by simp [hlv, hvl], hvl⟩
  · exact (mem_diskstatsSamplesFor s m hm).1

/-- Witness for C8 on the first sample of a concrete root entry. -/
theorem label_consistency_witness :
    (newQdiscStatCollector.bytes.mustNewConstMetric ((41 : Nat) : ℚ)
        ["eth0", "fq_codel"]).labelValues
      = [exRoot.ifaceName, exRoot.kind] :=
  (label_consistency "" (Except.ok [exRoot]) (fun _ => Except.error "e")
    (fun _ => Except.error "e") (Except.ok [exDrive])).2.1 exRoot
    (newQdiscStatCollector.bytes.mustNewConstMetric ((41 : Nat) : ℚ)
      ["eth0", "fq_codel"])
    (by decide)

/-- Claim C9: the diskstats sector metrics are computed from the operation
counts divided by the block size: the unique read_sectors sample of a drive
has value NumRead / BlockSize and the unique written_sectors sample has
value NumWrite / BlockSize. -/
theorem disk_sector_metrics_from_op_counts (s : DriveStats) :
    (diskstatsSamplesFor s).filter (fun m => m.desc == readSectorsDesc)
        = [{ desc := readSectorsDesc, valueType := ValueType.counter,
             value := (s.numRead : ℚ) / (s.blockSize : ℚ),
             labelValues := [s.name] }]
      ∧ (diskstatsSamplesFor s).filter (fun m => m.desc == writtenSectorsDesc)
        = [{ desc := writtenSectorsDesc, valueType := ValueType.counter,
             value := (s.numWrite : ℚ) / (s.blockSize : ℚ),
             labelValues := [s.name] }] := by
  exact ⟨rfl, rfl⟩

/-- Claim C10: metric kinds.  The five cumulative qdisc series are emitted
as counters and the two instantaneous ones (queue length, backlog) as
gauges; every diskstats descriptor is a counter. -/
theorem metric_value_kinds (msg : QdiscInfo) (hroot : msg.parent = 0) :
    (qdiscEmitOne newQdiscStatCollector msg).map Metric.valueType
        = [ValueType.counter, ValueType.counter, ValueType.counter,
           ValueType.counter, ValueType.counter, ValueType.gauge,
           ValueType.gauge]
      ∧ newQdiscStatCollector.bytes.valueType = ValueType.counter
      ∧ newQdiscStatCollector.packets.valueType = ValueType.counter
      ∧ newQdiscStatCollector.drops.valueType = ValueType.counter
      ∧ newQdiscStatCollector.requeues.valueType = ValueType.counter
      ∧ newQdiscStatCollector.overlimits.valueType = ValueType.counter
      ∧ newQdiscStatCollector.qlength.valueType = ValueType.gauge
      ∧ newQdiscStatCollector.backlog.valueType = ValueType.gauge
      ∧ diskstatsDescs.map (fun d => d.typedDesc.valueType)
        = List.replicate 12 ValueType.counter := by
  constructor
  · simp [qdiscEmitOne, hroot, TypedDesc.mustNewConstMetric, newQdiscStatCollector]
  · exact ⟨rfl, rfl, rfl, rfl, rfl, rfl, rfl, rfl⟩

/-- Witness for C10 at a concrete root entry. -/
theorem metric_value_kinds_witness :
    (qdiscEmitOne newQdiscStatCollector exRoot).map Metric.valueType
      = [ValueType.counter, ValueType.counter, ValueType.counter,
         ValueType.counter, ValueType.counter, ValueType.gauge,
         ValueType.gauge] :=
  (metric_value_kinds exRoot rfl).1

/-- Witness for C9 at a concrete drive entry. -/
theorem disk_sector_metrics_from_op_counts_witness :
    (diskstatsSamplesFor exDrive).filter (fun m => m.desc == readSectorsDesc)
      = [{ desc := readSectorsDesc, valueType := ValueType.counter,
           value := ((100 : Int) : ℚ) / ((512 : Int) : ℚ),
           labelValues := ["disk0"] }] :=
  (disk_sector_metrics_from_op_counts exDrive).1
